import Mathlib

/-!
Verification model of the IQAir Cloud command-protocol codec and interpreter
(`iqair_cloud/api.py` and its constants in `iqair_cloud/const.py`).

Bytes are modelled as `Nat` values (meaningful when `< 256`); byte strings as
`List Nat`; text as `List Char`.  The serial number string is modelled by its
UTF-8 byte list: the stripped pattern `"UI2_"` is pure ASCII, and ASCII bytes
never occur inside a multi-byte UTF-8 sequence, so `str.replace` on the string
and the same replacement on its UTF-8 bytes agree.
-/

namespace IQAir

/-- The standard base64 alphabet, as used by `base64.b64encode`/`b64decode`. -/
def b64chars : List Char :=
  "ABCDEFGHIJKLMNOPQRSTUVWXYZabcdefghijklmnopqrstuvwxyz0123456789+/".toList

/-- Character of a 6-bit group. -/
def b64ch (n : Nat) : Char := b64chars.getD n 'A'

/-- Index of a character in the base64 alphabet, `none` when not in it. -/
def b64val (c : Char) : Option Nat := b64chars.findIdx? (· = c)

/-- Whether `c` is in the base64 alphabet `[A-Za-z0-9+/]` (also the character
class of the frame-splitting regular expression in `_decode_grpc_response`). -/
def isB64 (c : Char) : Bool := (b64val c).isSome

/-- Characters kept by `base64.b64decode` (non-validate mode discards all
characters outside the alphabet and `'='` before decoding). -/
def b64keep (c : Char) : Bool := isB64 c || c = '='

/-- `base64.b64encode` on a byte list (3-byte groups to 4 characters, with
`'='` padding for a 1- or 2-byte tail). -/
def b64encode : List Nat → List Char
  | b0 :: b1 :: b2 :: rest =>
    b64ch (b0 / 4) :: b64ch (b0 % 4 * 16 + b1 / 16) ::
      b64ch (b1 % 16 * 4 + b2 / 64) :: b64ch (b2 % 64) :: b64encode rest
  | [b0, b1] => [b64ch (b0 / 4), b64ch (b0 % 4 * 16 + b1 / 16), b64ch (b1 % 16 * 4), '=']
  | [b0] => [b64ch (b0 / 4), b64ch (b0 % 4 * 16), '=', '=']
  | [] => []

/-- Quad-wise base64 decoding of the kept characters.  A trailing quad may end
in one or two `'='`; any other shape (length not a multiple of 4, `'='` in a
data position) is an error (`none`), modelling `binascii.Error`.  This matches
CPython on canonically padded input and on missing padding; CPython's lenient
treatment of `'='` in non-final positions is not reproduced (no input of that
shape survives the caller's frame splitting). -/
def b64decodeCore : List Char → Option (List Nat)
  | [] => some []
  | a :: b :: c :: d :: rest =>
    if rest = [] ∧ c = '=' ∧ d = '=' then
      match b64val a, b64val b with
      | some x, some y => some [x * 4 + y / 16]
      | _, _ => none
    else if rest = [] ∧ d = '=' then
      match b64val a, b64val b, b64val c with
      | some x, some y, some z => some [x * 4 + y / 16, y % 16 * 16 + z / 4]
      | _, _, _ => none
    else
      match b64val a, b64val b, b64val c, b64val d, b64decodeCore rest with
      | some x, some y, some z, some w, some tail =>
        some ((x * 4 + y / 16) :: (y % 16 * 16 + z / 4) :: (z % 4 * 64 + w) :: tail)
      | _, _, _, _, _ => none
  | _ => none

/-- `base64.b64decode` on text: discard characters outside the alphabet and
`'='`, then decode; `none` models a raised `binascii.Error`. -/
def b64decode (s : List Char) : Option (List Nat) :=
  b64decodeCore (s.filter b64keep)

/-- `struct.pack(">I", n)`: 4-byte big-endian length field. -/
def be4 (n : Nat) : List Nat :=
  [n / 16777216 % 256, n / 65536 % 256, n / 256 % 256, n % 256]

/-- `struct.unpack(">I", ...)` of a 4-byte list. -/
def readBE4 (l : List Nat) : Nat :=
  match l with
  | [a, b, c, d] => a * 16777216 + b * 65536 + c * 256 + d
  | _ => 0

/-! ### Basic alphabet lemmas -/

theorem b64chars_length : b64chars.length = 64 := by decide

theorem b64val_b64ch_lt (n : Nat) (h : n < 64) : b64val (b64ch n) = some n := by
  revert n h
  decide

theorem b64ch_eq_default (n : Nat) (h : 64 ≤ n) : b64ch n = 'A' := by
  unfold b64ch
  exact List.getD_eq_default _ _ (b64chars_length ▸ h)

theorem isB64_b64ch (n : Nat) : isB64 (b64ch n) = true := by
  by_cases h : n < 64
  · simp [isB64, b64val_b64ch_lt n h]
  · rw [b64ch_eq_default n (Nat.le_of_not_lt h)]
    decide

theorem b64ch_ne_pad (n : Nat) : b64ch n ≠ '=' := by
  by_cases h : n < 64
  · revert n h
    decide
  · rw [b64ch_eq_default n (Nat.le_of_not_lt h)]
    decide

theorem isB64_ne_pad {c : Char} (h : isB64 c = true) : c ≠ '=' := by
  rintro rfl
  revert h
  decide

theorem isB64_ne_nl {c : Char} (h : isB64 c = true) : c ≠ '\n' := by
  rintro rfl
  revert h
  decide

theorem b64keep_b64ch (n : Nat) : b64keep (b64ch n) = true := by
  simp [b64keep, isB64_b64ch]

/-! ### Custom induction principle following the 3-byte chunking -/

theorem chunk3_induction (P : List Nat → Prop) (h0 : P []) (h1 : ∀ b, P [b])
    (h2 : ∀ b c, P [b, c]) (h3 : ∀ b c d rest, P rest → P (b :: c :: d :: rest)) :
    ∀ l, P l
  | [] => h0
  | [b] => h1 b
  | [b, c] => h2 b c
  | b :: c :: d :: rest => h3 b c d rest (chunk3_induction P h0 h1 h2 h3 rest)

/-! ### Round-trip: decode after encode -/

theorem encode_all_keep (l : List Nat) : ∀ c ∈ b64encode l, b64keep c = true := by
  induction l using chunk3_induction with
  | h0 => intro c hc; simp [b64encode] at hc
  | h1 b =>
    intro c hc
    simp [b64encode] at hc
    rcases hc with h | h | h
    all_goals subst h
    · exact b64keep_b64ch _
    · exact b64keep_b64ch _
    · decide
  | h2 b0 b1 =>
    intro c hc
    simp [b64encode] at hc
    rcases hc with h | h | h | h
    all_goals subst h
    · exact b64keep_b64ch _
    · exact b64keep_b64ch _
    · exact b64keep_b64ch _
    · decide
  | h3 b0 b1 b2 rest ih =>
    intro c hc
    simp only [b64encode, List.mem_cons] at hc
    rcases hc with h | h | h | h | h
    · subst h; exact b64keep_b64ch _
    · subst h; exact b64keep_b64ch _
    · subst h; exact b64keep_b64ch _
    · subst h; exact b64keep_b64ch _
    · exact ih c h

theorem filter_encode (l : List Nat) : (b64encode l).filter b64keep = b64encode l :=
  List.filter_eq_self.mpr (encode_all_keep l)

theorem core_encode (l : List Nat) (h : ∀ b ∈ l, b < 256) :
    b64decodeCore (b64encode l) = some l := by
  induction l using chunk3_induction with
  | h0 => simp [b64encode, b64decodeCore]
  | h1 b0 =>
    have hb0 : b0 < 256 := h b0 (by simp)
    have e1 : b64val (b64ch (b0 / 4)) = some (b0 / 4) := b64val_b64ch_lt _ (by omega)
    have e2 : b64val (b64ch (b0 % 4 * 16)) = some (b0 % 4 * 16) := b64val_b64ch_lt _ (by omega)
    simp only [b64encode, b64decodeCore, e1, e2]
    simp only [List.cons.injEq, Option.some.injEq, and_true, eq_self_iff_true, true_and,
      if_true, and_self, reduceIte]
    omega
  | h2 b0 b1 =>
    have hb0 : b0 < 256 := h b0 (by simp)
    have hb1 : b1 < 256 := h b1 (by simp)
    have e1 : b64val (b64ch (b0 / 4)) = some (b0 / 4) := b64val_b64ch_lt _ (by omega)
    have e2 : b64val (b64ch (b0 % 4 * 16 + b1 / 16)) = some (b0 % 4 * 16 + b1 / 16) :=
      b64val_b64ch_lt _ (by omega)
    have e3 : b64val (b64ch (b1 % 16 * 4)) = some (b1 % 16 * 4) := b64val_b64ch_lt _ (by omega)
    have hne : b64ch (b1 % 16 * 4) ≠ '=' := b64ch_ne_pad _
    simp only [b64encode, b64decodeCore, e1, e2, e3, hne]
    simp only [List.cons.injEq, Option.some.injEq, and_true, eq_self_iff_true, true_and,
      and_false, false_and, if_false, if_true, and_self, reduceIte]
    omega
  | h3 b0 b1 b2 rest ih =>
    have hb0 : b0 < 256 := h b0 (by simp)
    have hb1 : b1 < 256 := h b1 (by simp)
    have hb2 : b2 < 256 := h b2 (by simp)
    have e1 : b64val (b64ch (b0 / 4)) = some (b0 / 4) := b64val_b64ch_lt _ (by omega)
    have e2 : b64val (b64ch (b0 % 4 * 16 + b1 / 16)) = some (b0 % 4 * 16 + b1 / 16) :=
      b64val_b64ch_lt _ (by omega)
    have e3 : b64val (b64ch (b1 % 16 * 4 + b2 / 64)) = some (b1 % 16 * 4 + b2 / 64) :=
      b64val_b64ch_lt _ (by omega)
    have e4 : b64val (b64ch (b2 % 64)) = some (b2 % 64) := b64val_b64ch_lt _ (by omega)
    have hne3 : b64ch (b1 % 16 * 4 + b2 / 64) ≠ '=' := b64ch_ne_pad _
    have hne4 : b64ch (b2 % 64) ≠ '=' := b64ch_ne_pad _
    have ihr : b64decodeCore (b64encode rest) = some rest :=
      ih (fun b hb => h b (by simp [hb]))
    simp only [b64encode, b64decodeCore, e1, e2, e3, e4, ihr, hne3, hne4]
    simp only [List.cons.injEq, Option.some.injEq, and_true, eq_self_iff_true, true_and,
      and_false, false_and, if_false, if_true, and_self, reduceIte]
    omega

/-- Base64 round-trip on byte lists. -/
theorem b64_roundtrip (l : List Nat) (h : ∀ b ∈ l, b < 256) :
    b64decode (b64encode l) = some l := by
  rw [b64decode, filter_encode]
  exact core_encode l h

/-! ### Frame splitting

`re.sub(r"(=+)([A-Za-z0-9+/])", r"\1\n\2", s)` inserts a newline exactly
between every `'='` and an immediately following base64-alphabet character;
the result is then split on newlines and empty pieces are dropped
(`api.py` lines 38-42 and the identical copy at lines 137-140). -/

/-- The effect of the `re.sub` boundary substitution, character-pairwise. -/
def insertBreaks : List Char → List Char
  | c1 :: c2 :: rest =>
    if c1 = '=' ∧ isB64 c2 = true then c1 :: '\n' :: insertBreaks (c2 :: rest)
    else c1 :: insertBreaks (c2 :: rest)
  | l => l

/-- Python `str.split("\n")`. -/
def splitOnNL : List Char → List (List Char)
  | [] => [[]]
  | c :: rest =>
    if c = '\n' then [] :: splitOnNL rest
    else
      match splitOnNL rest with
      | [] => [[c]]
      | p :: ps => (c :: p) :: ps

/-- Candidate base64 frames of a response body: break at padding boundaries,
split on newlines, drop empty pieces; when nothing remains of a non-empty
body, the whole body is the single candidate. -/
def splitFrames (s : List Char) : List (List Char) :=
  let fs := (splitOnNL (insertBreaks s)).filter (fun f => !f.isEmpty)
  if fs = [] ∧ s ≠ [] then [s] else fs

theorem b64keep_ne_nl {c : Char} (h : b64keep c = true) : c ≠ '\n' := by
  rintro rfl
  revert h
  decide

theorem insertBreaks_append_data (l : List Char) (hl : ∀ c ∈ l, c ≠ '=') :
    ∀ tail, insertBreaks (l ++ tail) = l ++ insertBreaks tail := by
  induction l with
  | nil => intro tail; simp
  | cons c l' ih =>
    intro tail
    have hc : c ≠ '=' := hl c (by simp)
    have hl' : ∀ x ∈ l', x ≠ '=' := fun x hx => hl x (by simp [hx])
    cases h : l' ++ tail with
    | nil =>
      rcases List.append_eq_nil.mp h with ⟨rfl, rfl⟩
      simp [insertBreaks]
    | cons c2 r =>
      show insertBreaks (c :: (l' ++ tail)) = c :: l' ++ insertBreaks tail
      rw [h, insertBreaks, if_neg (by simp [hc]), ← h, ih hl' tail]
      simp

theorem insertBreaks_pads (k : Nat) (hk : 1 ≤ k) (d : Char) (hd : isB64 d = true)
    (rest : List Char) :
    insertBreaks (List.replicate k '=' ++ d :: rest) =
      List.replicate k '=' ++ '\n' :: insertBreaks (d :: rest) := by
  induction k with
  | zero => omega
  | succ k ih =>
    cases k with
    | zero =>
      simp only [List.replicate, List.nil_append, List.singleton_append]
      rw [insertBreaks, if_pos ⟨rfl, hd⟩]
    | succ k' =>
      have hmid : List.replicate (k' + 1) '=' ++ d :: rest =
          '=' :: (List.replicate k' '=' ++ d :: rest) := by
        simp [List.replicate]
      rw [List.replicate, List.cons_append, hmid, insertBreaks,
        if_neg (by decide), ← hmid, ih (by omega)]
      simp [List.replicate]

theorem insertBreaks_pads_end (k : Nat) :
    insertBreaks (List.replicate k '=') = List.replicate k '=' := by
  induction k with
  | zero => rfl
  | succ k ih =>
    cases k with
    | zero => rfl
    | succ k' =>
      have hmid : List.replicate (k' + 1 + 1) '=' = '=' :: List.replicate (k' + 1) '=' := by
        simp [List.replicate]
      rw [hmid]
      have hmid2 : List.replicate (k' + 1) '=' = '=' :: List.replicate k' '=' := by
        simp [List.replicate]
      rw [hmid2, insertBreaks, if_neg (by decide), ← hmid2, ih]

theorem splitOnNL_no_nl (l : List Char) (h : ∀ c ∈ l, c ≠ '\n') : splitOnNL l = [l] := by
  induction l with
  | nil => rfl
  | cons c rest ih =>
    have hc : c ≠ '\n' := h c (by simp)
    rw [splitOnNL, if_neg hc, ih (fun x hx => h x (by simp [hx]))]

theorem splitOnNL_mid (xs ys : List Char) (h : ∀ c ∈ xs, c ≠ '\n') :
    splitOnNL (xs ++ '\n' :: ys) = xs :: splitOnNL ys := by
  induction xs with
  | nil => simp [splitOnNL]
  | cons c xs' ih =>
    have hc : c ≠ '\n' := h c (by simp)
    show splitOnNL (c :: (xs' ++ '\n' :: ys)) = (c :: xs') :: splitOnNL ys
    rw [splitOnNL, if_neg hc, ih (fun x hx => h x (by simp [hx]))]

theorem b64encode_structure (l : List Nat) :
    ∃ data : List Char,
      b64encode l = data ++ List.replicate ((3 - l.length % 3) % 3) '=' ∧
        (∀ c ∈ data, isB64 c = true) ∧ (l ≠ [] → data ≠ []) := by
  induction l using chunk3_induction with
  | h0 => exact ⟨[], by simp [b64encode], by simp, by simp⟩
  | h1 b0 =>
    refine ⟨[b64ch (b0 / 4), b64ch (b0 % 4 * 16)], by simp [b64encode, List.replicate], ?_, by simp⟩
    intro c hc
    simp at hc
    rcases hc with h | h
    all_goals exact h ▸ isB64_b64ch _
  | h2 b0 b1 =>
    refine ⟨[b64ch (b0 / 4), b64ch (b0 % 4 * 16 + b1 / 16), b64ch (b1 % 16 * 4)],
      by simp [b64encode, List.replicate], ?_, by simp⟩
    intro c hc
    simp at hc
    rcases hc with h | h | h
    all_goals exact h ▸ isB64_b64ch _
  | h3 b0 b1 b2 rest ih =>
    obtain ⟨data, henc, hmem, -⟩ := ih
    refine ⟨b64ch (b0 / 4) :: b64ch (b0 % 4 * 16 + b1 / 16) ::
      b64ch (b1 % 16 * 4 + b2 / 64) :: b64ch (b2 % 64) :: data, ?_, ?_, by simp⟩
    · have hmod : (3 - (b0 :: b1 :: b2 :: rest).length % 3) % 3 =
          (3 - rest.length % 3) % 3 := by
        simp only [List.length_cons]
        omega
      rw [hmod]
      simp [b64encode, henc]
    · intro c hc
      simp only [List.mem_cons] at hc
      rcases hc with h | h | h | h | h
      · exact h ▸ isB64_b64ch _
      · exact h ▸ isB64_b64ch _
      · exact h ▸ isB64_b64ch _
      · exact h ▸ isB64_b64ch _
      · exact hmem c h

theorem b64encode_ne_nil : ∀ l : List Nat, l ≠ [] → b64encode l ≠ []
  | [], h => absurd rfl h
  | [_], _ => by simp [b64encode]
  | [_, _], _ => by simp [b64encode]
  | _ :: _ :: _ :: _, _ => by simp [b64encode]

theorem b64encode_no_nl (l : List Nat) : ∀ c ∈ b64encode l, c ≠ '\n' :=
  fun c hc => b64keep_ne_nl (encode_all_keep l c hc)

/-- A single well-formed encoding survives frame splitting unchanged. -/
theorem splitFrames_single (l : List Nat) (h0 : l ≠ []) :
    splitFrames (b64encode l) = [b64encode l] := by
  obtain ⟨data, henc, hmem, hne⟩ := b64encode_structure l
  have hbreaks : insertBreaks (b64encode l) = b64encode l := by
    rw [henc, insertBreaks_append_data data (fun c hc => isB64_ne_pad (hmem c hc)),
      insertBreaks_pads_end]
  have hsplit : splitOnNL (b64encode l) = [b64encode l] :=
    splitOnNL_no_nl _ (b64encode_no_nl l)
  have henil : (b64encode l).isEmpty = false := by
    cases hE : b64encode l with
    | nil => exact absurd hE (b64encode_ne_nil l h0)
    | cons a as => rfl
  rw [splitFrames, hbreaks, hsplit]
  simp [List.filter, henil]

/-- Two concatenated encodings split at the padding boundary exactly when the
first encoding ends in padding, i.e. when the first byte list's length is not
a multiple of 3. -/
theorem splitFrames_two (A B : List Nat) (hA : A ≠ []) (hB : B ≠ [])
    (hmod : A.length % 3 ≠ 0) :
    splitFrames (b64encode A ++ b64encode B) = [b64encode A, b64encode B] := by
  obtain ⟨dataA, hencA, hmemA, hneA⟩ := b64encode_structure A
  obtain ⟨dataB, hencB, hmemB, hneB⟩ := b64encode_structure B
  have hkA : 1 ≤ (3 - A.length % 3) % 3 := by
    have := Nat.mod_lt A.length (show 0 < 3 by omega)
    omega
  obtain ⟨d, dataB', rfl⟩ : ∃ d dataB', dataB = d :: dataB' := by
    cases hdB : dataB with
    | nil => exact absurd hdB (hneB hB)
    | cons x xs => exact ⟨x, xs, rfl⟩
  have hd : isB64 d = true := hmemB d (by simp)
  have hbreaks : insertBreaks (b64encode A ++ b64encode B) =
      b64encode A ++ '\n' :: b64encode B := by
    rw [hencA, hencB]
    have step1 : (dataA ++ List.replicate ((3 - A.length % 3) % 3) '=') ++
        ((d :: dataB') ++ List.replicate ((3 - B.length % 3) % 3) '=') =
        dataA ++ (List.replicate ((3 - A.length % 3) % 3) '=' ++
          (d :: (dataB' ++ List.replicate ((3 - B.length % 3) % 3) '='))) := by
      simp [List.append_assoc]
    rw [step1, insertBreaks_append_data dataA (fun c hc => isB64_ne_pad (hmemA c hc)),
      insertBreaks_pads _ hkA d hd]
    have step2 : (d :: (dataB' ++ List.replicate ((3 - B.length % 3) % 3) '=')) =
        (d :: dataB') ++ List.replicate ((3 - B.length % 3) % 3) '=' := by
      simp
    rw [step2, insertBreaks_append_data (d :: dataB')
      (fun c hc => isB64_ne_pad (hmemB c hc)), insertBreaks_pads_end]
    simp [List.append_assoc]
  have hsplit : splitOnNL (b64encode A ++ '\n' :: b64encode B) =
      [b64encode A, b64encode B] := by
    rw [splitOnNL_mid _ _ (b64encode_no_nl A), splitOnNL_no_nl _ (b64encode_no_nl B)]
  have henA : (b64encode A).isEmpty = false := by
    cases hE : b64encode A with
    | nil => exact absurd hE (b64encode_ne_nil A hA)
    | cons a as => rfl
  have henB : (b64encode B).isEmpty = false := by
    cases hE : b64encode B with
    | nil => exact absurd hE (b64encode_ne_nil B hB)
    | cons a as => rfl
  rw [splitFrames, hbreaks, hsplit]
  simp [List.filter, henA, henB]

/-! ### Frame header fields (`api.py` lines 54-57) -/

/-- `frame_bytes[0]` (only used under a length guard). -/
def frameTypeOf (bytes : List Nat) : Nat := bytes.headD 0

/-- `struct.unpack(">I", frame_bytes[1:5])[0]`. -/
def declaredLenOf (bytes : List Nat) : Nat := readBE4 ((bytes.drop 1).take 4)

/-- `frame_bytes[5:]`. -/
def payloadOf (bytes : List Nat) : List Nat := bytes.drop 5

/-! ### Human-readable frame rendering (`_decode_grpc_response`) -/

/-- Lowercase hex digit. -/
def hexDigitChar (n : Nat) : Char :=
  if n < 10 then Char.ofNat (48 + n) else Char.ofNat (87 + n)

/-- Python `f"{b:02x}"` for a byte. -/
def byteHex (b : Nat) : String :=
  String.mk [hexDigitChar (b / 16 % 16), hexDigitChar (b % 16)]

/-- Python `" ".join(f"{b:02x}" for b in payload)`. -/
def payloadHex (payload : List Nat) : String :=
  String.intercalate " " (payload.map byteHex)

/-- Continuation byte `0x80..0xBF`. -/
def utf8Cont (b : Nat) : Prop := 128 ≤ b ∧ b < 192

instance (b : Nat) : Decidable (utf8Cont b) := by unfold utf8Cont; infer_instance

/-- Strict UTF-8 decoding of a byte list (RFC 3629 ranges, rejecting overlong
forms and surrogates), modelling `bytes.decode("utf-8")`; `none` models a
raised `UnicodeDecodeError`. -/
def utf8Decode : List Nat → Option (List Char)
  | [] => some []
  | b :: rest =>
    if b < 128 then
      match utf8Decode rest with
      | some t => some (Char.ofNat b :: t)
      | none => none
    else if 194 ≤ b ∧ b ≤ 223 then
      match rest with
      | b1 :: rest' =>
        if utf8Cont b1 then
          match utf8Decode rest' with
          | some t => some (Char.ofNat ((b - 192) * 64 + (b1 - 128)) :: t)
          | none => none
        else none
      | [] => none
    else if 224 ≤ b ∧ b ≤ 239 then
      match rest with
      | b1 :: b2 :: rest' =>
        if (if b = 224 then 160 else 128) ≤ b1 ∧ b1 ≤ (if b = 237 then 159 else 191) ∧
            utf8Cont b2 then
          match utf8Decode rest' with
          | some t => some (Char.ofNat ((b - 224) * 4096 + (b1 - 128) * 64 + (b2 - 128)) :: t)
          | none => none
        else none
      | _ => none
    else if 240 ≤ b ∧ b ≤ 244 then
      match rest with
      | b1 :: b2 :: b3 :: rest' =>
        if (if b = 240 then 144 else 128) ≤ b1 ∧ b1 ≤ (if b = 244 then 143 else 191) ∧
            utf8Cont b2 ∧ utf8Cont b3 then
          match utf8Decode rest' with
          | some t => some (Char.ofNat ((b - 240) * 262144 + (b1 - 128) * 4096 +
              (b2 - 128) * 64 + (b3 - 128)) :: t)
          | none => none
        else none
      | _ => none
    else none

/-- Python `str.strip()` whitespace (restricted to the ASCII whitespace that
can occur in gRPC trailer text). -/
def isPyWS (c : Char) : Bool :=
  c = ' ' || c = '\t' || c = '\n' || c = '\r' || c = '\x0b' || c = '\x0c'

/-- Python `str.strip()`. -/
def pyStrip (l : List Char) : List Char :=
  ((l.dropWhile isPyWS).reverse.dropWhile isPyWS).reverse

/-- The per-frame body of the decode loop of `_decode_grpc_response` (lines
45-76).  Every fallible operation inside the per-frame `try` (`b64decode`,
UTF-8 decoding of trailer text) maps to the `[Decoding Error]` entry; the
Python message also carries the exception text, which is not modelled. -/
def describeFrame (f : List Char) : String :=
  match b64decode f with
  | none => "  [Decoding Error]"
  | some bytes =>
    if bytes.length < 5 then
      "  [Invalid Frame: Too short (" ++ toString bytes.length ++ " bytes)]"
    else
      if frameTypeOf bytes = 0 then
        "  [Frame: DATA (0x00), Length: " ++ toString (declaredLenOf bytes) ++
          ", Payload: " ++ payloadHex (payloadOf bytes) ++ "]"
      else if frameTypeOf bytes = 128 then
        match utf8Decode (payloadOf bytes) with
        | none => "  [Decoding Error]"
        | some chars =>
          "  [Frame: TRAILERS (0x80), Length: " ++ toString (declaredLenOf bytes) ++
            ", Payload: '" ++ String.mk (pyStrip chars) ++ "']"
      else
        "  [Frame: Unknown (0x" ++ byteHex (frameTypeOf bytes) ++ "), Length: " ++
          toString (declaredLenOf bytes) ++ ", Payload: " ++
          payloadHex (payloadOf bytes) ++ "]"

/-- The decode loop: one diagnostic entry per candidate frame, in order. -/
def describeFrames : List (List Char) → List String
  | [] => []
  | f :: rest => describeFrame f :: describeFrames rest

/-- `_decode_grpc_response` (lines 33-78). -/
def decode_grpc_response (s : List Char) : String :=
  if s = [] then "  [Empty Response Body]"
  else String.intercalate "\n" (describeFrames (splitFrames s))

/-! ### Constants (`const.py`) -/

def ENDPOINT_FAN_SPEED : String := "/SetFanSpeed"
def ENDPOINT_POWER : String := "/SetPowerMode"
def ENDPOINT_LIGHT_INDICATOR : String := "/SetLightIndicator"
def ENDPOINT_LIGHT_LEVEL : String := "/SetLightLevel"
def ENDPOINT_AUTO_MODE : String := "/SetAutoMode"
def ENDPOINT_AUTO_MODE_PROFILE : String := "/SetAutoModeProfile"
def ENDPOINT_LOCKS : String := "/SetDefaultLocks"

def FIELD_POWER : Nat := 0x10
def FIELD_FAN_SPEED : Nat := 0x18
def FIELD_LIGHT_INDICATOR : Nat := 0x10
def FIELD_LIGHT_LEVEL : Nat := 0x10
def FIELD_AUTO_MODE : Nat := 0x10
def FIELD_AUTO_MODE_PROFILE : Nat := 0x10
def FIELD_LOCKS : Nat := 0x10

/-! ### Serial-number stripping and payload building (`_build_payload`) -/

/-- UTF-8 bytes of the pattern `"UI2_"`. -/
def ui2Pat : List Nat := [85, 73, 50, 95]

/-- Whether `s` starts with `pat`. -/
def beginsWith (pat s : List Nat) : Bool := s.take pat.length == pat

/-- `str.replace("UI2_", "")` on the UTF-8 bytes: remove every non-overlapping
occurrence of the pattern `[85, 73, 50, 95]`, scanning left to right. -/
def stripUI2 : List Nat → List Nat
  | 85 :: 73 :: 50 :: 95 :: rest => stripUI2 rest
  | c :: rest => c :: stripUI2 rest
  | [] => []

/-- Whether the pattern `"UI2_"` occurs anywhere in `s`. -/
def hasUI2 : List Nat → Bool
  | 85 :: 73 :: 50 :: 95 :: _ => true
  | _ :: rest => hasUI2 rest
  | [] => false

/-- Modelled from the spec: "the stripped form used in the payload excludes
exactly that prefix; for serial numbers without the prefix, stripping is a
no-op" — pure leading-prefix removal, for comparison against the source's
`replace`-based `stripUI2`. -/
def prefixStrippedSpec (s : List Nat) : List Nat :=
  if beginsWith ui2Pat s then s.drop 4 else s

/-- Exceptions that can escape the modelled operations. -/
inductive PyError where
  | valueError
  | httpStatusError
deriving DecidableEq

/-- The framed byte sequence assembled by `_build_payload` lines 104-112,
given the already stripped serial bytes. -/
def framedBytes (snPart : List Nat) (field : Nat) (value : Option Nat) : List Nat :=
  let payloadBytes := [0x0A, snPart.length] ++ snPart ++
    (match value with | some v => [field, v] | none => [])
  0x00 :: (be4 payloadBytes.length ++ payloadBytes)

/-- `_build_payload` (lines 97-114).  `Except.error .valueError` models the
`ValueError` raised for a missing serial number, and the `ValueError` that
`bytearray` raises when a length or field/value byte exceeds 255. -/
def build_payload (serial : List Nat) (field : Nat) (value : Option Nat) :
    Except PyError (List Char) :=
  if serial = [] then .error .valueError
  else
    let snPart := stripUI2 serial
    if 256 ≤ snPart.length ∨ 256 ≤ field ∨ 256 ≤ value.getD 0
    then .error .valueError
    else .ok (b64encode (framedBytes snPart field value))

/-! ### Response interpretation (`_send_command` lines 136-175) -/

/-- A value in a state delta. -/
inductive SVal where
  | bool (b : Bool)
  | nat (n : Nat)
deriving DecidableEq

/-- A partial device-state update. -/
abbrev StateDelta := List (String × SVal)

/-- Lines 149-175: interpretation of the first frame's raw bytes.  The
`len == 5` checks come first and return for three endpoints; otherwise the
`len > 6 and frame_bytes[0] == 0x00` guard selects the per-endpoint mapping
of the value byte at offset 6, and any other shape leaves `new_state = {}`. -/
def interpretFrameBytes (endpoint : String) (bytes : List Nat) : StateDelta :=
  if bytes.length = 5 ∧ endpoint = ENDPOINT_LIGHT_INDICATOR then
    [("lightIndicatorEnabled", SVal.bool false)]
  else if bytes.length = 5 ∧ endpoint = ENDPOINT_AUTO_MODE then
    [("autoModeEnabled", SVal.bool false)]
  else if bytes.length = 5 ∧ endpoint = ENDPOINT_LOCKS then
    [("isLocksEnabled", SVal.bool false)]
  else if 6 < bytes.length ∧ frameTypeOf bytes = 0 then
    let value := bytes.getD 6 0
    if endpoint = ENDPOINT_POWER then [("powerMode", SVal.nat value)]
    else if endpoint = ENDPOINT_FAN_SPEED then [("speedLevel", SVal.nat value)]
    else if endpoint = ENDPOINT_LIGHT_LEVEL then
      [("lightLevel", SVal.nat value), ("lightIndicatorEnabled", SVal.bool true)]
    else if endpoint = ENDPOINT_LIGHT_INDICATOR then
      [("lightIndicatorEnabled", SVal.bool (value = 1))]
    else if endpoint = ENDPOINT_AUTO_MODE then
      [("autoModeEnabled", SVal.bool (value = 1))]
    else if endpoint = ENDPOINT_AUTO_MODE_PROFILE then
      [("autoModeProfile", SVal.nat value)]
    else if endpoint = ENDPOINT_LOCKS then
      [("isLocksEnabled", SVal.bool (value = 1))]
    else []
  else []

/-- Lines 136-175: split the response text into frames, return the empty delta
when no frame was found, base64-decode the first frame (`none` models the
caught `binascii.Error`, which makes `_send_command` return `None`), then
interpret its bytes. -/
def interpretResponse (endpoint : String) (text : List Char) : Option StateDelta :=
  match splitFrames text with
  | [] => some []
  | first :: _ =>
    match b64decode first with
    | none => none
    | some bytes => some (interpretFrameBytes endpoint bytes)

/-- Outcome of the POST performed by the external command transport. -/
inductive TransportResult where
  | netError
  | response (status : Nat) (text : List Char)

/-- `httpx.Response.raise_for_status()`: raises `httpx.HTTPStatusError` for
any non-2xx status. -/
def raiseForStatus (status : Nat) : Except PyError Unit :=
  if 200 ≤ status ∧ status ≤ 299 then .ok () else .error .httpStatusError

/-- `_send_command` (lines 116-181) after the payload has been built, as a
function of the transport outcome.  The `except` clause catches
`httpx.RequestError` (network failure) and the parsing errors and returns
`None`; `httpx.HTTPStatusError` raised by `raise_for_status` is not in the
tuple and propagates. -/
def send_command (endpoint : String) (r : TransportResult) :
    Except PyError (Option StateDelta) :=
  match r with
  | .netError => .ok none
  | .response status text =>
    match raiseForStatus status with
    | .error e => .error e
    | .ok () => .ok (interpretResponse endpoint text)

/-! ### Caller-facing command operations (lines 183-233), up to the point the
request is handed to the transport: each returns the endpoint/payload pair it
would send, `Option.none` when validation rejects the argument locally. -/

def set_power (serial : List Nat) (is_on : Bool) :
    Except PyError (Option (String × List Char)) :=
  (build_payload serial FIELD_POWER (some (if is_on then 2 else 3))).map
    (fun p => some (ENDPOINT_POWER, p))

def set_fan_speed (serial : List Nat) (speed_level : Int) :
    Except PyError (Option (String × List Char)) :=
  if ¬(1 ≤ speed_level ∧ speed_level ≤ 6) then .ok none
  else (build_payload serial FIELD_FAN_SPEED (some speed_level.toNat)).map
    (fun p => some (ENDPOINT_FAN_SPEED, p))

def set_light_indicator (serial : List Nat) (is_on : Bool) :
    Except PyError (Option (String × List Char)) :=
  (build_payload serial FIELD_LIGHT_INDICATOR (if is_on then some 1 else none)).map
    (fun p => some (ENDPOINT_LIGHT_INDICATOR, p))

def set_light_level (serial : List Nat) (level : Int) :
    Except PyError (Option (String × List Char)) :=
  if level ≠ 1 ∧ level ≠ 2 ∧ level ≠ 3 then .ok none
  else (build_payload serial FIELD_LIGHT_LEVEL (some level.toNat)).map
    (fun p => some (ENDPOINT_LIGHT_LEVEL, p))

def set_auto_mode (serial : List Nat) (is_on : Bool) :
    Except PyError (Option (String × List Char)) :=
  (build_payload serial FIELD_AUTO_MODE (if is_on then some 1 else none)).map
    (fun p => some (ENDPOINT_AUTO_MODE, p))

def set_auto_mode_profile (serial : List Nat) (profile_id : Int) :
    Except PyError (Option (String × List Char)) :=
  if profile_id ≠ 1 ∧ profile_id ≠ 2 ∧ profile_id ≠ 3 then .ok none
  else (build_payload serial FIELD_AUTO_MODE_PROFILE (some profile_id.toNat)).map
    (fun p => some (ENDPOINT_AUTO_MODE_PROFILE, p))

def set_lock (serial : List Nat) (is_on : Bool) :
    Except PyError (Option (String × List Char)) :=
  (build_payload serial FIELD_LOCKS (if is_on then some 1 else none)).map
    (fun p => some (ENDPOINT_LOCKS, p))

/-! ### Helper lemmas about the payload builder -/

theorem readBE4_be4 (n : Nat) (h : n < 4294967296) : readBE4 (be4 n) = n := by
  simp only [be4, readBE4]
  omega

theorem framedBytes_frameType (sn : List Nat) (f : Nat) (v : Option Nat) :
    frameTypeOf (framedBytes sn f v) = 0 := rfl

theorem framedBytes_payloadOf (sn : List Nat) (f : Nat) (v : Option Nat) :
    payloadOf (framedBytes sn f v) =
      [10, sn.length] ++ sn ++ (match v with | some x => [f, x] | none => []) := rfl

theorem framedBytes_declaredLen (sn : List Nat) (f : Nat) (v : Option Nat)
    (hlen : sn.length ≤ 255) :
    declaredLenOf (framedBytes sn f v) = (payloadOf (framedBytes sn f v)).length := by
  have h1 : declaredLenOf (framedBytes sn f v) =
      readBE4 (be4 (payloadOf (framedBytes sn f v)).length) := rfl
  rw [h1, readBE4_be4]
  rw [framedBytes_payloadOf]
  cases v with
  | none => simp; omega
  | some x => simp; omega

theorem framedBytes_ne_nil (sn : List Nat) (f : Nat) (v : Option Nat) :
    framedBytes sn f v ≠ [] := by
  simp [framedBytes]

theorem framedBytes_lt (sn : List Nat) (f : Nat) (v : Option Nat)
    (hsn : ∀ b ∈ sn, b < 256) (hlen : sn.length ≤ 255) (hf : f ≤ 255)
    (hv : v.getD 0 ≤ 255) :
    ∀ b ∈ framedBytes sn f v, b < 256 := by
  intro b hb
  cases v with
  | none =>
    simp only [framedBytes, be4, List.cons_append, List.nil_append, List.append_nil,
      List.mem_cons, List.mem_append] at hb
    rcases hb with rfl | rfl | rfl | rfl | rfl | rfl | rfl | hmem
    · omega
    · exact Nat.mod_lt _ (by omega)
    · exact Nat.mod_lt _ (by omega)
    · exact Nat.mod_lt _ (by omega)
    · exact Nat.mod_lt _ (by omega)
    · omega
    · omega
    · exact hsn b hmem
  | some x =>
    simp only [Option.getD] at hv
    simp only [framedBytes, be4, List.cons_append, List.nil_append,
      List.mem_cons, List.mem_append] at hb
    rcases hb with rfl | rfl | rfl | rfl | rfl | rfl | rfl | hmem | rfl | hx
    · omega
    · exact Nat.mod_lt _ (by omega)
    · exact Nat.mod_lt _ (by omega)
    · exact Nat.mod_lt _ (by omega)
    · exact Nat.mod_lt _ (by omega)
    · omega
    · omega
    · exact hsn b hmem
    · omega
    · rcases hx with rfl | h0
      · omega
      · simp at h0

theorem build_payload_ok (serial : List Nat) (field : Nat) (value : Option Nat)
    (hser : serial ≠ []) (hlen : (stripUI2 serial).length ≤ 255)
    (hf : field ≤ 255) (hv : value.getD 0 ≤ 255) :
    build_payload serial field value =
      .ok (b64encode (framedBytes (stripUI2 serial) field value)) := by
  rw [build_payload, if_neg hser, if_neg (by push_neg; refine ⟨by omega, by omega, by omega⟩)]

/-! ### Helper lemmas about serial-number stripping -/

theorem stripUI2_pattern (rest : List Nat) :
    stripUI2 (85 :: 73 :: 50 :: 95 :: rest) = stripUI2 rest := rfl

theorem stripUI2_subset : ∀ s : List Nat, ∀ b ∈ stripUI2 s, b ∈ s := by
  intro s
  induction s using stripUI2.induct with
  | case1 rest ih =>
    intro b hb
    rw [stripUI2_pattern] at hb
    simp [ih b hb]
  | case2 c rest h ih =>
    intro b hb
    have heq : stripUI2 (c :: rest) = c :: stripUI2 rest := by
      rw [stripUI2]
      exact h
    rw [heq] at hb
    rcases List.mem_cons.mp hb with rfl | hmem
    · simp
    · simp [ih b hmem]
  | case3 =>
    intro b hb
    simp [stripUI2] at hb

theorem stripUI2_id (s : List Nat) (h : hasUI2 s = false) : stripUI2 s = s := by
  induction s using stripUI2.induct with
  | case1 rest ih =>
    rw [hasUI2] at h
    exact absurd h (by simp)
  | case2 c rest hc ih =>
    have heq : stripUI2 (c :: rest) = c :: stripUI2 rest := by
      rw [stripUI2]
      exact hc
    have hh : hasUI2 (c :: rest) = hasUI2 rest := by
      rw [hasUI2]
      exact hc
    rw [heq, ih (hh ▸ h)]
  | case3 => rfl

/-- Reduction of `interpretResponse` once the first frame and its bytes are
known. -/
theorem interpretResponse_first (endpoint : String) (text first : List Char)
    (rest : List (List Char)) (bytes : List Nat)
    (hsplit : splitFrames text = first :: rest) (hdec : b64decode first = some bytes) :
    interpretResponse endpoint text = some (interpretFrameBytes endpoint bytes) := by
  simp only [interpretResponse, hsplit, hdec]

/-! ### Claim C1 -/

/-- C1, as stated, is false: the code strips every occurrence of `"UI2_"`
(`str.replace`), not only a leading prefix.  For the serial number `"XUI2_Y"`
(bytes `[88, 85, 73, 50, 95, 89]`), which does not carry the prefix, the
payload's identifier sub-message holds `"XY"` (`[88, 89]`), not the
prefix-stripped serial bytes `[88, 85, 73, 50, 95, 89]` the claim requires. -/
theorem C1_counterexample :
    build_payload [88, 85, 73, 50, 95, 89] 16 (some 1) =
      .ok (b64encode (framedBytes [88, 89] 16 (some 1))) ∧
    prefixStrippedSpec [88, 85, 73, 50, 95, 89] = [88, 85, 73, 50, 95, 89] ∧
    payloadOf (framedBytes [88, 89] 16 (some 1)) = [10, 2, 88, 89, 16, 1] ∧
    payloadOf (framedBytes [88, 89] 16 (some 1)) ≠
      [10, 6] ++ prefixStrippedSpec [88, 85, 73, 50, 95, 89] ++ [16, 1] :=
  ⟨rfl, by decide, by decide, by decide⟩

/-- C1 (amended): for every non-empty serial number whose stripped form is at
most 255 bytes, and every field code and value in 0-255, encoding with
`_build_payload` and decoding the result recovers exactly one DATA (type 0)
frame whose 4-byte big-endian declared length equals the payload length and
whose payload is the identifier sub-message (byte `0x0A`, one length byte, the
serial bytes with every occurrence of `"UI2_"` removed) followed by the field
code byte and the value byte. -/
theorem C1_roundtrip (serial : List Nat) (field value : Nat)
    (hser : serial ≠ []) (hbytes : ∀ b ∈ serial, b < 256)
    (hlen : (stripUI2 serial).length ≤ 255) (hf : field ≤ 255) (hv : value ≤ 255) :
    ∃ enc bytes,
      build_payload serial field (some value) = .ok enc ∧
      splitFrames enc = [enc] ∧
      b64decode enc = some bytes ∧
      frameTypeOf bytes = 0 ∧
      declaredLenOf bytes = (payloadOf bytes).length ∧
      payloadOf bytes =
        [10, (stripUI2 serial).length] ++ stripUI2 serial ++ [field, value] := by
  have hsnlt : ∀ b ∈ stripUI2 serial, b < 256 :=
    fun b hb => hbytes b (stripUI2_subset serial b hb)
  have hflt : ∀ b ∈ framedBytes (stripUI2 serial) field (some value), b < 256 :=
    framedBytes_lt _ _ _ hsnlt hlen hf (by simpa using hv)
  refine ⟨b64encode (framedBytes (stripUI2 serial) field (some value)),
    framedBytes (stripUI2 serial) field (some value), ?_, ?_, ?_, ?_, ?_, ?_⟩
  · exact build_payload_ok serial field (some value) hser hlen hf (by simpa using hv)
  · exact splitFrames_single _ (framedBytes_ne_nil _ _ _)
  · exact b64_roundtrip _ hflt
  · exact framedBytes_frameType _ _ _
  · exact framedBytes_declaredLen _ _ _ hlen
  · exact framedBytes_payloadOf _ _ _

/-- Witness for C1 at serial `"A"`, field 16, value 1. -/
theorem C1_roundtrip_witness :
    ∃ enc bytes,
      build_payload [65] 16 (some 1) = .ok enc ∧
      splitFrames enc = [enc] ∧
      b64decode enc = some bytes ∧
      frameTypeOf bytes = 0 ∧
      declaredLenOf bytes = (payloadOf bytes).length ∧
      payloadOf bytes = [10, (stripUI2 [65]).length] ++ stripUI2 [65] ++ [16, 1] :=
  C1_roundtrip [65] 16 1 (by decide) (by decide) (by decide) (by decide) (by decide)

/-! ### Claim C2 -/

/-- C2: for a response whose first decoded frame has type byte 0 and more than
6 raw bytes, interpretation reads the value byte at offset 6 and maps it per
endpoint. -/
theorem C2_data_frame_values (endpoint : String) (text first : List Char)
    (rest : List (List Char)) (bytes : List Nat)
    (hsplit : splitFrames text = first :: rest) (hdec : b64decode first = some bytes)
    (hlen : 6 < bytes.length) (htype : frameTypeOf bytes = 0) :
    (endpoint = ENDPOINT_POWER → interpretResponse endpoint text =
      some [("powerMode", SVal.nat (bytes.getD 6 0))]) ∧
    (endpoint = ENDPOINT_FAN_SPEED → interpretResponse endpoint text =
      some [("speedLevel", SVal.nat (bytes.getD 6 0))]) ∧
    (endpoint = ENDPOINT_LIGHT_LEVEL → interpretResponse endpoint text =
      some [("lightLevel", SVal.nat (bytes.getD 6 0)),
        ("lightIndicatorEnabled", SVal.bool true)]) ∧
    (endpoint = ENDPOINT_LIGHT_INDICATOR → interpretResponse endpoint text =
      some [("lightIndicatorEnabled", SVal.bool (bytes.getD 6 0 = 1))]) ∧
    (endpoint = ENDPOINT_AUTO_MODE → interpretResponse endpoint text =
      some [("autoModeEnabled", SVal.bool (bytes.getD 6 0 = 1))]) ∧
    (endpoint = ENDPOINT_AUTO_MODE_PROFILE → interpretResponse endpoint text =
      some [("autoModeProfile", SVal.nat (bytes.getD 6 0))]) ∧
    (endpoint = ENDPOINT_LOCKS → interpretResponse endpoint text =
      some [("isLocksEnabled", SVal.bool (bytes.getD 6 0 = 1))]) := by
  have hir := interpretResponse_first endpoint text first rest bytes hsplit hdec
  have h5 : bytes.length ≠ 5 := by omega
  refine ⟨?_, ?_, ?_, ?_, ?_, ?_, ?_⟩ <;> rintro rfl <;> rw [hir] <;>
    simp +decide [interpretFrameBytes, h5, hlen, htype, ENDPOINT_POWER,
      ENDPOINT_FAN_SPEED, ENDPOINT_LIGHT_INDICATOR, ENDPOINT_LIGHT_LEVEL,
      ENDPOINT_AUTO_MODE, ENDPOINT_AUTO_MODE_PROFILE, ENDPOINT_LOCKS]

/-- Witness for C2: the power endpoint with a 7-byte DATA frame carrying value
2 at offset 6 yields `{powerMode: 2}`. -/
theorem C2_witness :
    interpretResponse ENDPOINT_POWER (b64encode [0, 0, 0, 0, 2, 10, 2]) =
      some [("powerMode", SVal.nat 2)] :=
  (C2_data_frame_values ENDPOINT_POWER (b64encode [0, 0, 0, 0, 2, 10, 2])
    (b64encode [0, 0, 0, 0, 2, 10, 2]) [] [0, 0, 0, 0, 2, 10, 2]
    (by decide) (by decide) (by decide) (by decide)).1 rfl

/-! ### Claim C3 -/

/-- C3: a first decoded frame of exactly 5 raw bytes yields the "cleared to
off" delta for the light-indicator, auto-mode and locks endpoints, and an
empty delta for every other endpoint. -/
theorem C3_header_only_frame (endpoint : String) (text first : List Char)
    (rest : List (List Char)) (bytes : List Nat)
    (hsplit : splitFrames text = first :: rest) (hdec : b64decode first = some bytes)
    (hlen : bytes.length = 5) :
    (endpoint = ENDPOINT_LIGHT_INDICATOR → interpretResponse endpoint text =
      some [("lightIndicatorEnabled", SVal.bool false)]) ∧
    (endpoint = ENDPOINT_AUTO_MODE → interpretResponse endpoint text =
      some [("autoModeEnabled", SVal.bool false)]) ∧
    (endpoint = ENDPOINT_LOCKS → interpretResponse endpoint text =
      some [("isLocksEnabled", SVal.bool false)]) ∧
    (endpoint ≠ ENDPOINT_LIGHT_INDICATOR → endpoint ≠ ENDPOINT_AUTO_MODE →
      endpoint ≠ ENDPOINT_LOCKS → interpretResponse endpoint text = some []) := by
  have hir := interpretResponse_first endpoint text first rest bytes hsplit hdec
  refine ⟨?_, ?_, ?_, ?_⟩
  · rintro rfl
    rw [hir]
    simp +decide [interpretFrameBytes, hlen, ENDPOINT_LIGHT_INDICATOR,
      ENDPOINT_AUTO_MODE, ENDPOINT_LOCKS]
  · rintro rfl
    rw [hir]
    simp +decide [interpretFrameBytes, hlen, ENDPOINT_LIGHT_INDICATOR,
      ENDPOINT_AUTO_MODE, ENDPOINT_LOCKS]
  · rintro rfl
    rw [hir]
    simp +decide [interpretFrameBytes, hlen, ENDPOINT_LIGHT_INDICATOR,
      ENDPOINT_AUTO_MODE, ENDPOINT_LOCKS]
  · intro h1 h2 h3
    rw [hir]
    simp [interpretFrameBytes, hlen, h1, h2, h3]

/-- Witness for C3: a bare 5-byte DATA header at the light-indicator endpoint
yields `{lightIndicatorEnabled: false}`, and at the power endpoint an empty
delta. -/
theorem C3_witness :
    interpretResponse ENDPOINT_LIGHT_INDICATOR (b64encode [0, 0, 0, 0, 0]) =
      some [("lightIndicatorEnabled", SVal.bool false)] ∧
    interpretResponse ENDPOINT_POWER (b64encode [0, 0, 0, 0, 0]) = some [] :=
  ⟨(C3_header_only_frame ENDPOINT_LIGHT_INDICATOR (b64encode [0, 0, 0, 0, 0])
      (b64encode [0, 0, 0, 0, 0]) [] [0, 0, 0, 0, 0]
      (by decide) (by decide) (by decide)).1 rfl,
   (C3_header_only_frame ENDPOINT_POWER (b64encode [0, 0, 0, 0, 0])
      (b64encode [0, 0, 0, 0, 0]) [] [0, 0, 0, 0, 0]
      (by decide) (by decide) (by decide)).2.2.2 (by decide) (by decide) (by decide)⟩

/-! ### Claim C4 -/

/-- C4, as stated, is false: the `len == 5` check runs before the type-byte
check, so a 5-byte frame whose type byte is `0x80` (not DATA) still yields a
non-empty delta at the light-indicator endpoint. -/
theorem C4_counterexample :
    b64decode (String.toList "gAAAAAA=") = some [128, 0, 0, 0, 0] ∧
    frameTypeOf [128, 0, 0, 0, 0] ≠ 0 ∧
    interpretResponse ENDPOINT_LIGHT_INDICATOR (String.toList "gAAAAAA=") =
      some [("lightIndicatorEnabled", SVal.bool false)] ∧
    some [("lightIndicatorEnabled", SVal.bool false)] ≠
      (some [] : Option StateDelta) := by
  refine ⟨by decide, by decide, by decide, by decide⟩

/-- C4 (amended): a first decoded frame whose raw length is not 5 yields an
empty delta for every endpoint whenever its type byte differs from 0 or its
raw length is at most 6. -/
theorem C4_other_shapes_empty (endpoint : String) (text first : List Char)
    (rest : List (List Char)) (bytes : List Nat)
    (hsplit : splitFrames text = first :: rest) (hdec : b64decode first = some bytes)
    (h5 : bytes.length ≠ 5)
    (hshape : bytes.length ≤ 6 ∨ frameTypeOf bytes ≠ 0) :
    interpretResponse endpoint text = some [] := by
  rw [interpretResponse_first endpoint text first rest bytes hsplit hdec]
  rw [interpretFrameBytes, if_neg (fun h => h5 h.1), if_neg (fun h => h5 h.1),
    if_neg (fun h => h5 h.1)]
  rcases hshape with h | h
  · rw [if_neg (fun hc => by omega)]
  · rw [if_neg (fun hc => h hc.2)]

/-- Witness for C4: a 6-byte DATA frame (≤ 6 bytes, ≠ 5 bytes) at the power
endpoint yields an empty delta. -/
theorem C4_witness :
    interpretResponse ENDPOINT_POWER (b64encode [0, 0, 0, 0, 1, 7]) = some [] :=
  C4_other_shapes_empty ENDPOINT_POWER (b64encode [0, 0, 0, 0, 1, 7])
    (b64encode [0, 0, 0, 0, 1, 7]) [] [0, 0, 0, 0, 1, 7]
    (by decide) (by decide) (by decide) (Or.inl (by decide))

/-! ### Claim C5 -/

/-- C5, as stated, is false: the `except` tuple of `_send_command` names
`httpx.RequestError` but not `httpx.HTTPStatusError`, so a non-2xx status
(here 500) raises out of the command operation instead of returning `None`. -/
theorem C5_counterexample :
    send_command ENDPOINT_POWER (.response 500 []) = .error .httpStatusError ∧
    (Except.error PyError.httpStatusError :
      Except PyError (Option StateDelta)) ≠ .ok none := by
  exact ⟨rfl, by simp⟩

/-- C5 (amended): a network failure (`httpx.RequestError`) and a response
whose first frame fails to base64-decode (`binascii.Error`) are caught and
yield `None`; a non-2xx status raises `httpx.HTTPStatusError`, which is not in
the `except` tuple and propagates to the caller. -/
theorem C5_transport_errors :
    (∀ endpoint : String, send_command endpoint .netError = .ok none) ∧
    (∀ (endpoint : String) (status : Nat) (text : List Char),
      ¬(200 ≤ status ∧ status ≤ 299) →
      send_command endpoint (.response status text) = .error .httpStatusError) ∧
    (∀ (endpoint : String) (status : Nat) (text first : List Char)
      (rest : List (List Char)),
      200 ≤ status → status ≤ 299 →
      splitFrames text = first :: rest → b64decode first = none →
      send_command endpoint (.response status text) = .ok none) := by
  refine ⟨fun _ => rfl, ?_, ?_⟩
  · intro endpoint status text h
    simp [send_command, raiseForStatus, if_neg h]
  · intro endpoint status text first rest h1 h2 hsplit hdec
    simp [send_command, raiseForStatus, if_pos (And.intro h1 h2),
      interpretResponse, hsplit, hdec]

/-- Witness for C5 at concrete inputs: a 404 status propagates the exception;
a 200 response whose sole candidate frame `"QQ"` is invalid base64 yields
`None`. -/
theorem C5_witness :
    send_command ENDPOINT_FAN_SPEED (.response 404 []) = .error .httpStatusError ∧
    send_command ENDPOINT_FAN_SPEED (.response 200 (String.toList "QQ")) = .ok none :=
  ⟨C5_transport_errors.2.1 ENDPOINT_FAN_SPEED 404 [] (by decide),
   C5_transport_errors.2.2 ENDPOINT_FAN_SPEED 200 (String.toList "QQ")
     (String.toList "QQ") [] (by decide) (by decide) (by decide) (by decide)⟩

/-! ### Claim C6 -/

/-- C6, as stated, is false: stripping uses `str.replace("UI2_", "")`, which
removes every occurrence, so for the serial `"XUI2_Y"` — which does not carry
the `"UI2_"` prefix — stripping is not a no-op. -/
theorem C6_counterexample :
    beginsWith ui2Pat [88, 85, 73, 50, 95, 89] = false ∧
    stripUI2 [88, 85, 73, 50, 95, 89] = [88, 89] ∧
    stripUI2 [88, 85, 73, 50, 95, 89] ≠ [88, 85, 73, 50, 95, 89] ∧
    build_payload [88, 85, 73, 50, 95, 89] 16 (some 2) =
      .ok (b64encode (framedBytes [88, 89] 16 (some 2))) :=
  ⟨by decide, by decide, by decide, rfl⟩

/-- C6 (amended): the serial bytes placed in the encoded payload are the
serial number with every occurrence of `"UI2_"` removed; when `"UI2_"` occurs
only as a leading prefix the result is exactly the prefix-stripped serial, and
when it does not occur at all stripping is a no-op. -/
theorem C6_strip_semantics :
    (∀ rest : List Nat, hasUI2 rest = false → stripUI2 (ui2Pat ++ rest) = rest) ∧
    (∀ s : List Nat, hasUI2 s = false → stripUI2 s = s) ∧
    (∀ (serial : List Nat) (field : Nat) (value : Option Nat),
      serial ≠ [] → (stripUI2 serial).length ≤ 255 → field ≤ 255 →
      value.getD 0 ≤ 255 →
      build_payload serial field value =
        .ok (b64encode (framedBytes (stripUI2 serial) field value))) := by
  refine ⟨?_, stripUI2_id, ?_⟩
  · intro rest h
    show stripUI2 (85 :: 73 :: 50 :: 95 :: rest) = rest
    rw [stripUI2_pattern, stripUI2_id rest h]
  · intro serial field value hser hlen hf hv
    exact build_payload_ok serial field value hser hlen hf hv

/-- Witness for C6: stripping `"UI2_AB"` leaves `"AB"`, stripping `"AB"` is a
no-op, and the payload for serial `"AB"` embeds exactly those bytes. -/
theorem C6_witness :
    stripUI2 (ui2Pat ++ [65, 66]) = [65, 66] ∧
    stripUI2 [65, 66] = [65, 66] ∧
    build_payload [65, 66] 16 (some 1) =
      .ok (b64encode (framedBytes (stripUI2 [65, 66]) 16 (some 1))) :=
  ⟨C6_strip_semantics.1 [65, 66] (by decide),
   C6_strip_semantics.2.1 [65, 66] (by decide),
   C6_strip_semantics.2.2 [65, 66] 16 (some 1) (by decide) (by decide)
     (by decide) (by decide)⟩

/-! ### Claim C7 -/

/-- C7: the diagnostic decoder is total over the embedding — the empty body
has a defined rendering, a candidate frame that fails base64 decoding or
decodes to fewer than 5 bytes contributes a per-frame diagnostic entry while
the remaining frames are still decoded, and every non-empty body renders as
the newline-join of the per-frame entries. -/
theorem C7_decoder_total :
    decode_grpc_response [] = "  [Empty Response Body]" ∧
    (∀ f : List Char, b64decode f = none → ∀ rest : List (List Char),
      describeFrames (f :: rest) = "  [Decoding Error]" :: describeFrames rest) ∧
    (∀ (f : List Char) (bytes : List Nat), b64decode f = some bytes →
      bytes.length < 5 → ∀ rest : List (List Char),
      describeFrames (f :: rest) =
        ("  [Invalid Frame: Too short (" ++ toString bytes.length ++ " bytes)]") ::
          describeFrames rest) ∧
    (∀ s : List Char, s ≠ [] →
      decode_grpc_response s = String.intercalate "\n" (describeFrames (splitFrames s))) ∧
    decode_grpc_response (String.toList "QQ\nAAAAAAAA") =
      "  [Decoding Error]\n  [Frame: DATA (0x00), Length: 0, Payload: 00]" := by
  refine ⟨rfl, ?_, ?_, ?_, by decide⟩
  · intro f hf rest
    simp [describeFrames, describeFrame, hf]
  · intro f bytes hf hlen rest
    simp [describeFrames, describeFrame, hf, hlen]
  · intro s hs
    rw [decode_grpc_response, if_neg hs]

/-- Witness for C7: the invalid candidate `"QQ"` yields the decoding-error
entry without blocking the following frame; `"AAAA"` (3 raw bytes) yields the
too-short entry; a non-empty body renders as the join of its entries. -/
theorem C7_witness :
    describeFrames [String.toList "QQ", String.toList "AAAAAAAA"] =
      "  [Decoding Error]" :: describeFrames [String.toList "AAAAAAAA"] ∧
    describeFrames [String.toList "AAAA"] =
      ("  [Invalid Frame: Too short (" ++ toString ([0, 0, 0] : List Nat).length ++
        " bytes)]") :: describeFrames [] ∧
    decode_grpc_response (String.toList "QQ") =
      String.intercalate "\n" (describeFrames (splitFrames (String.toList "QQ"))) :=
  ⟨C7_decoder_total.2.1 (String.toList "QQ") (by decide) [String.toList "AAAAAAAA"],
   C7_decoder_total.2.2.1 (String.toList "AAAA") [0, 0, 0] (by decide) (by decide) [],
   C7_decoder_total.2.2.2.1 (String.toList "QQ") (by decide)⟩

/-! ### Claim C8 -/

/-- C8, as stated, is false: when the first frame's byte length is a multiple
of 3 its base64 encoding carries no `'='` padding, so no split boundary
exists and the concatenation decodes as a single frame.  Here frame A is the
well-formed 6-byte DATA frame `[0,0,0,0,1,7]` and frame B is `[0,0,0,0,0]`. -/
theorem C8_counterexample :
    splitFrames (b64encode [0, 0, 0, 0, 1, 7] ++ b64encode [0, 0, 0, 0, 0]) =
      [b64encode [0, 0, 0, 0, 1, 7] ++ b64encode [0, 0, 0, 0, 0]] ∧
    splitFrames (b64encode [0, 0, 0, 0, 1, 7] ++ b64encode [0, 0, 0, 0, 0]) ≠
      [b64encode [0, 0, 0, 0, 1, 7], b64encode [0, 0, 0, 0, 0]] := by
  refine ⟨by decide, by decide⟩

/-- C8 (amended): for non-empty frames A and B with A's byte length not a
multiple of 3 (so that base64(A) ends in padding), decoding the concatenation
base64(A) ++ base64(B) returns exactly the two frames in order, each
independently decoded back to its bytes; the split is made where `'='`
padding is immediately followed by a base64 character. -/
theorem C8_two_frames (A B : List Nat) (hA : A ≠ []) (hB : B ≠ [])
    (hAb : ∀ b ∈ A, b < 256) (hBb : ∀ b ∈ B, b < 256)
    (hmod : A.length % 3 ≠ 0) :
    splitFrames (b64encode A ++ b64encode B) = [b64encode A, b64encode B] ∧
    b64decode (b64encode A) = some A ∧
    b64decode (b64encode B) = some B :=
  ⟨splitFrames_two A B hA hB hmod, b64_roundtrip A hAb, b64_roundtrip B hBb⟩

/-- Witness for C8 with a 7-byte DATA frame followed by a 5-byte TRAILERS
frame. -/
theorem C8_witness :
    splitFrames (b64encode [0, 0, 0, 0, 2, 10, 2] ++ b64encode [128, 0, 0, 0, 0]) =
      [b64encode [0, 0, 0, 0, 2, 10, 2], b64encode [128, 0, 0, 0, 0]] ∧
    b64decode (b64encode [0, 0, 0, 0, 2, 10, 2]) = some [0, 0, 0, 0, 2, 10, 2] ∧
    b64decode (b64encode [128, 0, 0, 0, 0]) = some [128, 0, 0, 0, 0] :=
  C8_two_frames [0, 0, 0, 0, 2, 10, 2] [128, 0, 0, 0, 0]
    (by decide) (by decide) (by decide) (by decide) (by decide)

/-! ### Claim C9 -/

/-- C9: out-of-range command arguments are rejected locally with no payload
built and no request sent (also for an unset serial number, showing the
payload builder is never reached), while the boundary fan speeds 1 and 6 are
accepted and produce a request. -/
theorem C9_validation :
    (∀ (serial : List Nat) (speed : Int), ¬(1 ≤ speed ∧ speed ≤ 6) →
      set_fan_speed serial speed = .ok none) ∧
    (∀ (serial : List Nat) (level : Int), level ≠ 1 ∧ level ≠ 2 ∧ level ≠ 3 →
      set_light_level serial level = .ok none) ∧
    (∀ (serial : List Nat) (pid : Int), pid ≠ 1 ∧ pid ≠ 2 ∧ pid ≠ 3 →
      set_auto_mode_profile serial pid = .ok none) ∧
    (∀ serial : List Nat, serial ≠ [] → (stripUI2 serial).length ≤ 255 →
      set_fan_speed serial 1 = .ok (some (ENDPOINT_FAN_SPEED,
        b64encode (framedBytes (stripUI2 serial) FIELD_FAN_SPEED (some 1)))) ∧
      set_fan_speed serial 6 = .ok (some (ENDPOINT_FAN_SPEED,
        b64encode (framedBytes (stripUI2 serial) FIELD_FAN_SPEED (some 6))))) := by
  refine ⟨?_, ?_, ?_, ?_⟩
  · intro serial speed h
    rw [set_fan_speed, if_pos h]
  · intro serial level h
    rw [set_light_level, if_pos h]
  · intro serial pid h
    rw [set_auto_mode_profile, if_pos h]
  · intro serial hser hlen
    constructor
    · rw [set_fan_speed, if_neg (by decide),
        build_payload_ok serial FIELD_FAN_SPEED (some ((1 : Int).toNat)) hser hlen
          (by decide) (by decide)]
      rfl
    · rw [set_fan_speed, if_neg (by decide),
        build_payload_ok serial FIELD_FAN_SPEED (some ((6 : Int).toNat)) hser hlen
          (by decide) (by decide)]
      rfl

/-- Witness for C9: `set_fan_speed` rejects 0 and 7, `set_light_level` rejects
0, `set_auto_mode_profile` rejects 4 — all even with an unset serial — and
fan speeds 1 and 6 are accepted for serial `"A"`. -/
theorem C9_witness :
    set_fan_speed [] 0 = .ok none ∧
    set_fan_speed [] 7 = .ok none ∧
    set_light_level [] 0 = .ok none ∧
    set_auto_mode_profile [] 4 = .ok none ∧
    set_fan_speed [65] 1 = .ok (some (ENDPOINT_FAN_SPEED,
      b64encode (framedBytes (stripUI2 [65]) FIELD_FAN_SPEED (some 1)))) ∧
    set_fan_speed [65] 6 = .ok (some (ENDPOINT_FAN_SPEED,
      b64encode (framedBytes (stripUI2 [65]) FIELD_FAN_SPEED (some 6)))) :=
  ⟨C9_validation.1 [] 0 (by decide), C9_validation.1 [] 7 (by decide),
   C9_validation.2.1 [] 0 (by decide), C9_validation.2.2.1 [] 4 (by decide),
   (C9_validation.2.2.2 [65] (by decide) (by decide)).1,
   (C9_validation.2.2.2 [65] (by decide) (by decide)).2⟩

/-! ### Claim C10 -/

/-- C10, as stated, is false for `set_power`: with `is_on = false` it sends
the explicit value byte 3 (`value = 2 if is_on else 3`), so the payload does
carry a fieldCode/value pair rather than an absent field. -/
theorem C10_counterexample :
    set_power [65, 65, 65] false =
      .ok (some (ENDPOINT_POWER, b64encode (framedBytes [65, 65, 65] 16 (some 3)))) ∧
    payloadOf (framedBytes [65, 65, 65] 16 (some 3)) = [10, 3, 65, 65, 65, 16, 3] ∧
    payloadOf (framedBytes [65, 65, 65] 16 (some 3)) ≠ [10, 3, 65, 65, 65] :=
  ⟨rfl, by decide, by decide⟩

/-- C10 (amended): `set_light_indicator`, `set_auto_mode` and `set_lock` send
"off" as an absent field — the payload holds only the identifier sub-message —
and send the explicit value byte 1 for "on"; `set_power` sends an explicit
value byte for both states, 2 for on and 3 for off. -/
theorem C10_boolean_commands (serial : List Nat) (hser : serial ≠ [])
    (hlen : (stripUI2 serial).length ≤ 255) :
    set_light_indicator serial false = .ok (some (ENDPOINT_LIGHT_INDICATOR,
      b64encode (framedBytes (stripUI2 serial) FIELD_LIGHT_INDICATOR none))) ∧
    set_auto_mode serial false = .ok (some (ENDPOINT_AUTO_MODE,
      b64encode (framedBytes (stripUI2 serial) FIELD_AUTO_MODE none))) ∧
    set_lock serial false = .ok (some (ENDPOINT_LOCKS,
      b64encode (framedBytes (stripUI2 serial) FIELD_LOCKS none))) ∧
    payloadOf (framedBytes (stripUI2 serial) FIELD_LIGHT_INDICATOR none) =
      [10, (stripUI2 serial).length] ++ stripUI2 serial ∧
    set_light_indicator serial true = .ok (some (ENDPOINT_LIGHT_INDICATOR,
      b64encode (framedBytes (stripUI2 serial) FIELD_LIGHT_INDICATOR (some 1)))) ∧
    set_auto_mode serial true = .ok (some (ENDPOINT_AUTO_MODE,
      b64encode (framedBytes (stripUI2 serial) FIELD_AUTO_MODE (some 1)))) ∧
    set_lock serial true = .ok (some (ENDPOINT_LOCKS,
      b64encode (framedBytes (stripUI2 serial) FIELD_LOCKS (some 1)))) ∧
    payloadOf (framedBytes (stripUI2 serial) FIELD_LIGHT_INDICATOR (some 1)) =
      [10, (stripUI2 serial).length] ++ stripUI2 serial ++ [FIELD_LIGHT_INDICATOR, 1] ∧
    set_power serial false = .ok (some (ENDPOINT_POWER,
      b64encode (framedBytes (stripUI2 serial) FIELD_POWER (some 3)))) ∧
    set_power serial true = .ok (some (ENDPOINT_POWER,
      b64encode (framedBytes (stripUI2 serial) FIELD_POWER (some 2)))) ∧
    payloadOf (framedBytes (stripUI2 serial) FIELD_POWER (some 3)) =
      [10, (stripUI2 serial).length] ++ stripUI2 serial ++ [FIELD_POWER, 3] := by
  have hli : set_light_indicator serial false = (build_payload serial
      FIELD_LIGHT_INDICATOR none).map (fun p => some (ENDPOINT_LIGHT_INDICATOR, p)) := rfl
  have ham : set_auto_mode serial false = (build_payload serial
      FIELD_AUTO_MODE none).map (fun p => some (ENDPOINT_AUTO_MODE, p)) := rfl
  have hlk : set_lock serial false = (build_payload serial
      FIELD_LOCKS none).map (fun p => some (ENDPOINT_LOCKS, p)) := rfl
  have hlit : set_light_indicator serial true = (build_payload serial
      FIELD_LIGHT_INDICATOR (some 1)).map (fun p => some (ENDPOINT_LIGHT_INDICATOR, p)) := rfl
  have hamt : set_auto_mode serial true = (build_payload serial
      FIELD_AUTO_MODE (some 1)).map (fun p => some (ENDPOINT_AUTO_MODE, p)) := rfl
  have hlkt : set_lock serial true = (build_payload serial
      FIELD_LOCKS (some 1)).map (fun p => some (ENDPOINT_LOCKS, p)) := rfl
  have hpf : set_power serial false = (build_payload serial
      FIELD_POWER (some 3)).map (fun p => some (ENDPOINT_POWER, p)) := rfl
  have hpt : set_power serial true = (build_payload serial
      FIELD_POWER (some 2)).map (fun p => some (ENDPOINT_POWER, p)) := rfl
  refine ⟨?_, ?_, ?_, ?_, ?_, ?_, ?_, ?_, ?_, ?_, ?_⟩
  · rw [hli, build_payload_ok serial FIELD_LIGHT_INDICATOR none hser hlen
      (by decide) (by decide)]
    rfl
  · rw [ham, build_payload_ok serial FIELD_AUTO_MODE none hser hlen
      (by decide) (by decide)]
    rfl
  · rw [hlk, build_payload_ok serial FIELD_LOCKS none hser hlen
      (by decide) (by decide)]
    rfl
  · rw [framedBytes_payloadOf]
    simp
  · rw [hlit, build_payload_ok serial FIELD_LIGHT_INDICATOR (some 1) hser hlen
      (by decide) (by decide)]
    rfl
  · rw [hamt, build_payload_ok serial FIELD_AUTO_MODE (some 1) hser hlen
      (by decide) (by decide)]
    rfl
  · rw [hlkt, build_payload_ok serial FIELD_LOCKS (some 1) hser hlen
      (by decide) (by decide)]
    rfl
  · rw [framedBytes_payloadOf]
  · rw [hpf, build_payload_ok serial FIELD_POWER (some 3) hser hlen
      (by decide) (by decide)]
    rfl
  · rw [hpt, build_payload_ok serial FIELD_POWER (some 2) hser hlen
      (by decide) (by decide)]
    rfl
  · rw [framedBytes_payloadOf]

/-- Witness for C10 at serial `"A"`: off is an absent field for the light
indicator, but an explicit value byte 3 for power. -/
theorem C10_witness :
    set_light_indicator [65] false = .ok (some (ENDPOINT_LIGHT_INDICATOR,
      b64encode (framedBytes (stripUI2 [65]) FIELD_LIGHT_INDICATOR none))) ∧
    set_power [65] false = .ok (some (ENDPOINT_POWER,
      b64encode (framedBytes (stripUI2 [65]) FIELD_POWER (some 3)))) :=
  ⟨(C10_boolean_commands [65] (by decide) (by decide)).1,
   (C10_boolean_commands [65] (by decide) (by decide)).2.2.2.2.2.2.2.2.1⟩

end IQAir
